import Mathlib

/-!
Shallow embedding of the MediFile backend core
(`medifile_backend/core/models.py`, `medifile_backend/core/serializers.py`).

The source is a Django application: `models.py` declares the tables, their
fields, defaults, unique constraints and `on_delete` rules; `serializers.py`
defines the create/update logic that the DRF `ModelViewSet`s in `views.py`
expose as the operation surface.  Timestamps and dates are modelled as `Nat`
(minutes/seconds since an epoch), decimal vitals as scaled `Int`, and the
relational store as one record of lists (`DB`).  Auto-generated primary keys
(`BigAutoField`) are passed in explicitly by the caller of each operation.

Operations that the framework can reject return `Except DBError DB`.  The
DRF request flow runs field validation (choice membership, `allow_blank`,
and the `UniqueValidator`s derived from `unique=True` / `UniqueConstraint`
declarations) before a serializer `create`/`update` is invoked, so a failed
operation writes nothing; the embedding mirrors this by checking the declared
constraints first and returning the untouched-store error before any insert.
The one exception is the prescription create path, whose failure arises
inside `create` after a row was already written: that operation returns the
error (if any) together with the store as the code leaves it.
-/

namespace MediFile

/-- `User.Role` choices in `models.py`: admin, doctor, patient, nurse. -/
inductive Role
  | admin
  | doctor
  | patient
  | nurse
deriving DecidableEq

/-- `Appointment.Status` choices in `models.py`: scheduled, completed, canceled. -/
inductive AppointmentStatus
  | scheduled
  | completed
  | canceled
deriving DecidableEq

/-- `AuditLog.Action` choices in `models.py`: login, record_access, edit. -/
inductive AuditAction
  | login
  | record_access
  | edit
deriving DecidableEq

/-- Row of table `users` (`class User`).  `email` is declared `unique=True`;
`is_active` defaults to true, `is_staff` to false, `created_at` to now.
(Fields inherited from the framework base classes, such as the password
hash, are outside the declared model and omitted.) -/
structure UserRec where
  user_id : Nat
  email : String
  role : Role
  is_active : Bool
  is_staff : Bool
  created_at : Nat
deriving DecidableEq

/-- Row of table `user_profiles` (`class UserProfile`), one-to-one with `User`. -/
structure UserProfileRec where
  profile_id : Nat
  user : Nat
  first_name : String
  last_name : String
  phone : String
  address : String
  date_of_birth : Option Nat
deriving DecidableEq

/-- Row of table `patients` (`class Patient`), one-to-one with `User`. -/
structure PatientRec where
  patient_id : Nat
  user : Nat
  blood_type : String
  allergies : String
  height : Option Int
  weight : Option Int
  insurance_provider : String
deriving DecidableEq

/-- Row of table `medical_history` (`class MedicalHistory`).
`doctor_id` is a nullable FK to `Doctor` with `on_delete=SET_NULL`. -/
structure MedicalHistoryRec where
  record_id : Nat
  patient : Nat
  diagnosis : String
  treatment : String
  date_recorded : Nat
  doctor_id : Option Nat
deriving DecidableEq

/-- Row of table `hospitals` (`class Hospital`). -/
structure HospitalRec where
  hospital_id : Nat
  name : String
  address : String
  contact_number : String
deriving DecidableEq

/-- Row of table `doctors` (`class Doctor`).  `license_number` is declared
`unique=True`; `hospital` is a nullable FK with `on_delete=SET_NULL`. -/
structure DoctorRec where
  doctor_id : Nat
  user : Nat
  specialization : String
  license_number : String
  hospital : Option Nat
deriving DecidableEq

/-- Row of table `slots` (`class Slot`).  `is_available` defaults to true;
Meta declares `UniqueConstraint(fields=[doctor, start_time, end_time],
name=unique_slot)`.  The FK `doctor` has `on_delete=CASCADE`. -/
structure SlotRec where
  slot_id : Nat
  doctor : Nat
  start_time : Nat
  end_time : Nat
  is_available : Bool
deriving DecidableEq

/-- Row of table `appointments` (`class Appointment`).  `status` defaults to
scheduled.  The model has no FK to `Slot`: an appointment carries only a
`date_time`.  Both `patient` and `doctor` FKs are `on_delete=CASCADE`. -/
structure AppointmentRec where
  appointment_id : Nat
  patient : Nat
  doctor : Nat
  date_time : Nat
  status : AppointmentStatus
  notes : String
deriving DecidableEq

/-- Row of table `medications` (`class Medication`). -/
structure MedicationRec where
  medication_id : Nat
  name : String
  description : String
  manufacturer : String
deriving DecidableEq

/-- Row of table `prescriptions` (`class Prescription`).  Both `patient` and
`doctor` FKs are `on_delete=CASCADE`. -/
structure PrescriptionRec where
  prescription_id : Nat
  patient : Nat
  doctor : Nat
  issue_date : Nat
  expiry_date : Option Nat
  notes : String
deriving DecidableEq

/-- Row of table `prescription_items` (`class PrescriptionItem`), FK
`prescription` with `on_delete=CASCADE`. -/
structure PrescriptionItemRec where
  item_id : Nat
  prescription : Nat
  medication_name : String
  dosage : String
  frequency : String
  duration : String
deriving DecidableEq

/-- Row of table `audit_logs` (`class AuditLog`); `user` is a nullable FK
with `on_delete=SET_NULL`. -/
structure AuditLogRec where
  log_id : Nat
  user : Option Nat
  action : AuditAction
  timestamp : Nat
  ip_address : Option String
deriving DecidableEq

/-- Row of table `access_tokens` (`class AccessToken`).  `token` is declared
`unique=True`; `user` FK is `on_delete=CASCADE`. -/
structure AccessTokenRec where
  token_id : Nat
  user : Nat
  token : String
  expires_at : Nat
deriving DecidableEq

/-- The relational store: one list per table declared in `models.py`. -/
structure DB where
  users : List UserRec
  profiles : List UserProfileRec
  patients : List PatientRec
  histories : List MedicalHistoryRec
  hospitals : List HospitalRec
  doctors : List DoctorRec
  slots : List SlotRec
  appointments : List AppointmentRec
  medications : List MedicationRec
  prescriptions : List PrescriptionRec
  items : List PrescriptionItemRec
  auditlogs : List AuditLogRec
  tokens : List AccessTokenRec
deriving DecidableEq

/-- The empty store. -/
def DB.empty : DB :=
  ⟨[], [], [], [], [], [], [], [], [], [], [], [], []⟩

/-- Errors surfaced by the framework layer: `uniqueViolation` for a declared
unique key (the duplicate-key conflict of the spec), `valueError` for the
explicit `raise ValueError` / field-validation failures, `typeError` for a
Python TypeError escaping a serializer. -/
inductive DBError
  | uniqueViolation (field : String)
  | valueError (msg : String)
  | typeError (msg : String)
deriving DecidableEq

instance : DecidableEq (Except DBError DB) := fun a b =>
  match a, b with
  | .ok x, .ok y =>
      if h : x = y then isTrue (by rw [h]) else isFalse (by simp [h])
  | .error x, .error y =>
      if h : x = y then isTrue (by rw [h]) else isFalse (by simp [h])
  | .ok _, .error _ => isFalse (by simp)
  | .error _, .ok _ => isFalse (by simp)

/-- `BaseUserManager.normalize_email`: lowercase the part after the last `@`
(the domain); an address without `@` is returned unchanged. -/
def normalize_email (email : String) : String :=
  if email.contains '@' then
    let rcs := email.data.reverse
    let domain := (rcs.takeWhile (fun c => c ≠ '@')).reverse
    let name := ((rcs.dropWhile (fun c => c ≠ '@')).drop 1).reverse
    String.mk (name ++ '@' :: domain.map Char.toLower)
  else email

/-- `UserManager._create_user` (called by `UserSerializer.create` through
`User.objects.create_user`): rejects an empty email with `ValueError`,
normalizes the email, and saves; the save enforces `email unique=True`.
`is_staff` is defaulted to false by `create_user`; `created_at` defaults to
the current time (`now`).  `uid` stands for the auto primary key. -/
def create_user (db : DB) (uid : Nat) (email : String) (role : Role)
    (is_active : Bool) (now : Nat) : Except DBError DB :=
  if email = "" then
    .error (.valueError "The email field must be set")
  else if db.users.any (fun u => decide (u.email = normalize_email email)) then
    .error (.uniqueViolation "users.email")
  else
    .ok { db with
            users := db.users ++
              [⟨uid, normalize_email email, role, is_active, false, now⟩] }

/-- Optional nested profile payload of `UserSerializer` (`profile` field,
`required=False`). -/
structure ProfileNew where
  first_name : String
  last_name : String
  phone : String
  address : String
  date_of_birth : Option Nat
deriving DecidableEq

/-- `UserSerializer.create`: pops the nested profile, calls
`User.objects.create_user`, then creates the `UserProfile` row if profile
data was given.  `uid`/`pid` stand for the auto primary keys. -/
def userSerializer_create (db : DB) (uid pid : Nat) (email : String)
    (role : Role) (is_active : Bool) (profile : Option ProfileNew)
    (now : Nat) : Except DBError DB :=
  match create_user db uid email role is_active now with
  | .error e => .error e
  | .ok db1 =>
      match profile with
      | none => .ok db1
      | some p =>
          .ok { db1 with
                  profiles := db1.profiles ++
                    [⟨pid, uid, p.first_name, p.last_name, p.phone,
                      p.address, p.date_of_birth⟩] }

/-- Update payload of `UserSerializer.update`: every writable field may be
present.  `user_id` and `created_at` are declared `read_only_fields` and
therefore never appear in `validated_data`. -/
structure UserUpdate where
  email : Option String
  role : Option Role
  is_active : Option Bool
  profile : Option ProfileNew
deriving DecidableEq

/-- The `setattr` loop of `UserSerializer.update` applied to one row. -/
def apply_user_update (u : UserRec) (upd : UserUpdate) : UserRec :=
  { u with
      email := upd.email.getD u.email
      role := upd.role.getD u.role
      is_active := upd.is_active.getD u.is_active }

/-- The user-row rewrite performed by the `instance.save()` of
`UserSerializer.update`: the matched instance row is replaced by the
updated instance. -/
def userRowsUpdated (db : DB) (uid : Nat) (u : UserRec) (upd : UserUpdate) :
    DB :=
  { db with
      users := db.users.map (fun v =>
        if v.user_id = uid then apply_user_update u upd else v) }

/-- The profile branch of `UserSerializer.update`:
`UserProfile.objects.get_or_create(user=instance)` (Django fills absent
`CharField`s with the empty string on create), then the setattr loop and
`profile.save()`. -/
def profileUpserted (db : DB) (uid : Nat) (p : ProfileNew) : DB :=
  match db.profiles.find? (fun q => decide (q.user = uid)) with
  | some q =>
      { db with
          profiles := db.profiles.map (fun r =>
            if r.profile_id = q.profile_id then
              ⟨q.profile_id, uid, p.first_name, p.last_name, p.phone,
               p.address, p.date_of_birth⟩
            else r) }
  | none =>
      { db with
          profiles := db.profiles ++
            [⟨db.profiles.length + 1, uid, p.first_name, p.last_name,
              p.phone, p.address, p.date_of_birth⟩] }

/-- `UserSerializer.update`: sets each provided attribute on the instance and
saves (the save enforces `email unique=True`); then, when profile data is
present, upserts the profile row. -/
def userSerializer_update (db : DB) (uid : Nat) (upd : UserUpdate) :
    Except DBError DB :=
  match db.users.find? (fun u => decide (u.user_id = uid)) with
  | none => .error (.valueError "User matching query does not exist")
  | some u =>
      if db.users.any (fun v => decide (v.user_id ≠ uid ∧
          v.email = (apply_user_update u upd).email)) then
        .error (.uniqueViolation "users.email")
      else
        match upd.profile with
        | none => .ok (userRowsUpdated db uid u upd)
        | some p => .ok (profileUpserted (userRowsUpdated db uid u upd) uid p)

/-- `PatientSerializer.create`: creates the nested user via
`UserSerializer().create(user_data)`, then `Patient.objects.create`.
The `Patient` model declares no unique field besides its primary key. -/
def patientSerializer_create (db : DB) (uid ppid patid : Nat) (email : String)
    (role : Role) (is_active : Bool) (profile : Option ProfileNew) (now : Nat)
    (blood_type allergies : String) (height weight : Option Int)
    (insurance_provider : String) : Except DBError DB :=
  match userSerializer_create db uid ppid email role is_active profile now with
  | .error e => .error e
  | .ok db1 =>
      .ok { db1 with
              patients := db1.patients ++
                [⟨patid, uid, blood_type, allergies, height, weight,
                  insurance_provider⟩] }

/-- `DoctorSerializer.create`: creates the nested user, then
`Doctor.objects.create`.  The request-level validation derived from
`license_number unique=True` rejects a duplicate license before anything is
written; `hospital` is read-only in the serializer, hence unset (none). -/
def doctorSerializer_create (db : DB) (uid ppid did : Nat) (email : String)
    (role : Role) (is_active : Bool) (profile : Option ProfileNew) (now : Nat)
    (specialization license_number : String) : Except DBError DB :=
  if db.doctors.any (fun d => decide (d.license_number = license_number)) then
    .error (.uniqueViolation "doctors.license_number")
  else
    match userSerializer_create db uid ppid email role is_active profile now with
    | .error e => .error e
    | .ok db1 =>
        .ok { db1 with
                doctors := db1.doctors ++
                  [⟨did, uid, specialization, license_number, none⟩] }

/-- Create payload of `SlotSerializer` (`fields = all`).  `is_available` is
optional because the model field declares `default=True`. -/
structure SlotNew where
  doctor : Nat
  start_time : Nat
  end_time : Nat
  is_available : Option Bool
deriving DecidableEq

/-- Slot creation through `SlotSerializer` (a plain `ModelSerializer`, so the
default `create` is `Slot.objects.create`): the only declared constraint is
the `unique_slot` `UniqueConstraint` on (doctor, start_time, end_time); no
relation between `start_time` and `end_time` is checked anywhere.  A missing
`is_available` takes the model default true. -/
def createSlot (db : DB) (sid : Nat) (s : SlotNew) : Except DBError DB :=
  if db.slots.any (fun t => decide (t.doctor = s.doctor ∧
      t.start_time = s.start_time ∧ t.end_time = s.end_time)) then
    .error (.uniqueViolation "unique_slot")
  else
    .ok { db with
            slots := db.slots ++
              [⟨sid, s.doctor, s.start_time, s.end_time,
                s.is_available.getD true⟩] }

/-- Create payload of `AppointmentSerializer` (`fields = all`); `status` is
optional because the model field declares `default=scheduled`. -/
structure AppointmentNew where
  patient : Nat
  doctor : Nat
  date_time : Nat
  status : Option AppointmentStatus
  notes : String
deriving DecidableEq

/-- Appointment creation through `AppointmentSerializer` (default
`ModelSerializer.create`, i.e. `Appointment.objects.create`): the model
declares no constraint beyond the choice set of `status`, no slot reference,
and no availability check, so creation always succeeds and touches no other
table. -/
def appointmentSerializer_create (db : DB) (aid : Nat) (a : AppointmentNew) :
    DB :=
  { db with
      appointments := db.appointments ++
        [⟨aid, a.patient, a.doctor, a.date_time, a.status.getD .scheduled,
          a.notes⟩] }

/-- Update payload of `AppointmentSerializer`: every model field is writable. -/
structure AppointmentUpdate where
  patient : Option Nat
  doctor : Option Nat
  date_time : Option Nat
  status : Option AppointmentStatus
  notes : Option String
deriving DecidableEq

/-- The default `ModelSerializer.update` setattr loop applied to one row. -/
def apply_appointment_update (a : AppointmentRec) (upd : AppointmentUpdate) :
    AppointmentRec :=
  { a with
      patient := upd.patient.getD a.patient
      doctor := upd.doctor.getD a.doctor
      date_time := upd.date_time.getD a.date_time
      status := upd.status.getD a.status
      notes := upd.notes.getD a.notes }

/-- Appointment update through `AppointmentSerializer` (default
`ModelSerializer.update`): sets each provided attribute and saves.  Field
validation only checks that `status` is one of the declared choices; no
state-machine rule exists, and no slot is read or written. -/
def appointmentSerializer_update (db : DB) (aid : Nat)
    (upd : AppointmentUpdate) : Except DBError DB :=
  match db.appointments.find? (fun a => decide (a.appointment_id = aid)) with
  | none => .error (.valueError "Appointment matching query does not exist")
  | some a =>
      .ok { db with
              appointments := db.appointments.map (fun b =>
                if b.appointment_id = aid then apply_appointment_update a upd
                else b) }

/-- Item payload of the nested `PrescriptionItemSerializer`.  With
`fields = all` over `PrescriptionItem`, the serializer generates a writable,
required `prescription` primary-key field (the model FK is non-null with no
default) besides the four character fields; only the read-only `item_id`
primary key is absent from the payload. -/
structure PrescriptionItemNew where
  prescription : Nat
  medication_name : String
  dosage : String
  frequency : String
  duration : String
deriving DecidableEq

/-- Create payload of `PrescriptionSerializer`; `items` is `many=True,
required=False`, popped with default `[]` in `create`. -/
structure PrescriptionNew where
  patient : Nat
  doctor : Nat
  issue_date : Nat
  expiry_date : Option Nat
  notes : String
  items : List PrescriptionItemNew
deriving DecidableEq

/-- An item field left blank.  The four item columns are `CharField`s without
`blank=True`, so the request-level field validation (`allow_blank=False`)
rejects an empty string in any of them. -/
def itemBlank (it : PrescriptionItemNew) : Bool :=
  decide (it.medication_name = "" ∨ it.dosage = "" ∨ it.frequency = "" ∨
    it.duration = "")

/-- The field-validation step (`is_valid`) run before
`PrescriptionSerializer.create`: every item character field must be
non-blank (`allow_blank=False`), and the required `prescription` field of
each item must reference an existing Prescription row
(`PrimaryKeyRelatedField` queryset check).  A failed validation returns the
400 error with nothing written. -/
def issuePrescription_validate (db : DB) (p : PrescriptionNew) :
    Option DBError :=
  if p.items.any itemBlank then
    some (.valueError "This field may not be blank.")
  else if p.items.any (fun it => !(db.prescriptions.any (fun pr =>
      decide (pr.prescription_id = it.prescription)))) then
    some (.valueError "Invalid pk - object does not exist.")
  else
    none

/-- The body of `PrescriptionSerializer.create`: pop `items` (default `[]`),
`Prescription.objects.create`, then one
`PrescriptionItem.objects.create(prescription=prescription, **item_data)`
per item.  Each validated `item_data` already contains the required
`prescription` key, so the first loop iteration raises a duplicate-keyword
TypeError — after the Prescription row was written and before any item row:
with a non-empty items list the Prescription persists alone and the error
escapes; with an empty list the call succeeds. -/
def prescriptionSerializer_create (db : DB) (pid : Nat)
    (p : PrescriptionNew) : Option DBError × DB :=
  ((if p.items.isEmpty then none
    else some (.typeError
      "create got multiple values for keyword argument prescription")),
   { db with
       prescriptions := db.prescriptions ++
         [⟨pid, p.patient, p.doctor, p.issue_date, p.expiry_date,
           p.notes⟩] })

/-- The full request path for issuing a prescription: DRF field validation
first (nothing written on failure), then `PrescriptionSerializer.create`,
whose result store is returned together with the TypeError when the items
loop raises. -/
def issuePrescription (db : DB) (pid : Nat) (p : PrescriptionNew) :
    Option DBError × DB :=
  match issuePrescription_validate db p with
  | some e => (some e, db)
  | none => prescriptionSerializer_create db pid p

/-- `AccessToken` creation (`AccessTokenSerializer` is a plain
`ModelSerializer`; no view or route is registered for it, and no
`issueToken`/`validate` function exists anywhere in the source).  The only
declared constraint is `token unique=True`: `expires_at` is an arbitrary
datetime, checked against nothing. -/
def accessToken_create (db : DB) (tid : Nat) (user : Nat) (token : String)
    (expires_at : Nat) : Except DBError DB :=
  if db.tokens.any (fun t => decide (t.token = token)) then
    .error (.uniqueViolation "access_tokens.token")
  else
    .ok { db with
            tokens := db.tokens ++ [⟨tid, user, token, expires_at⟩] }

/-- Deleting a `Doctor` row, following the `on_delete` declarations in
`models.py`: `Slot.doctor`, `Appointment.doctor` and `Prescription.doctor`
are `CASCADE` (and `PrescriptionItem.prescription` is `CASCADE`, so the
items of a deleted prescription go with it); `MedicalHistory.doctor_id` is
`SET_NULL`.  No other table references `Doctor`. -/
def delete_doctor (db : DB) (did : Nat) : DB :=
  { db with
      doctors := db.doctors.filter (fun d => decide (d.doctor_id ≠ did))
      slots := db.slots.filter (fun s => decide (s.doctor ≠ did))
      appointments := db.appointments.filter (fun a => decide (a.doctor ≠ did))
      prescriptions := db.prescriptions.filter (fun p => decide (p.doctor ≠ did))
      items := db.items.filter (fun i =>
        decide (¬ ∃ p ∈ db.prescriptions,
          p.doctor = did ∧ p.prescription_id = i.prescription))
      histories := db.histories.map (fun h =>
        if h.doctor_id = some did then { h with doctor_id := none } else h) }

/-- The three global unique keys declared in `models.py`: `User.email`,
`Doctor.license_number` and `AccessToken.token` (all `unique=True`). -/
def UniqueKeys (db : DB) : Prop :=
  db.users.Pairwise (fun a b => a.email ≠ b.email) ∧
  db.doctors.Pairwise (fun a b => a.license_number ≠ b.license_number) ∧
  db.tokens.Pairwise (fun a b => a.token ≠ b.token)

/-- Concrete fixture: one doctor (user 1), two patients (users 2 and 3), and
one available slot of doctor 1 from minute 540 (09:00) to 570 (09:30). -/
def dbBase : DB :=
  { DB.empty with
      users := [⟨1, "doc@hospital.org", Role.doctor, true, false, 0⟩,
                ⟨2, "pat1@mail.org", Role.patient, true, false, 0⟩,
                ⟨3, "pat2@mail.org", Role.patient, true, false, 0⟩]
      doctors := [⟨1, 1, "cardiology", "LIC-100", none⟩]
      patients := [⟨1, 2, "", "", none, none, ""⟩, ⟨2, 3, "", "", none, none, ""⟩]
      slots := [⟨1, 1, 540, 570, true⟩] }

/-- Booking payload of patient 1 with doctor 1 at the slot time 540. -/
def bookP1 : AppointmentNew :=
  ⟨1, 1, 540, none, ""⟩

/-- Booking payload of patient 2 with doctor 1 at the same slot time 540. -/
def bookP2 : AppointmentNew :=
  ⟨2, 1, 540, none, ""⟩

/-- Fixture: the slot is taken (unavailable) and appointment 1 of patient 1
with doctor 1 at 540 is in state completed. -/
def dbCompleted : DB :=
  { dbBase with
      slots := [⟨1, 1, 540, 570, false⟩]
      appointments := [⟨1, 1, 1, 540, AppointmentStatus.completed, ""⟩] }

/-- Fixture: the slot is taken (unavailable) and appointment 1 of patient 1
with doctor 1 at 540 is in state scheduled. -/
def dbBooked : DB :=
  { dbBase with
      slots := [⟨1, 1, 540, 570, false⟩]
      appointments := [⟨1, 1, 1, 540, AppointmentStatus.scheduled, ""⟩] }

/-- Prescription payload with an empty items list. -/
def presEmpty : PrescriptionNew :=
  ⟨1, 1, 100, none, "", []⟩

/-- Slot payload whose end time (540 = 09:00) precedes its start time
(600 = 10:00). -/
def slotBad : SlotNew :=
  ⟨1, 600, 540, none⟩

/-- Update payload that only changes the role to admin. -/
def updRole : UserUpdate :=
  ⟨none, some Role.admin, none, none⟩

/-- Fixture extending `dbBase` with a medical history row written by doctor 1
and a prescription of doctor 1 with one item, for the cascade claims. -/
def dbClinical : DB :=
  { dbBase with
      histories := [⟨1, 1, "flu", "rest", 10, some 1⟩,
                    ⟨2, 2, "cold", "", 11, none⟩]
      prescriptions := [⟨1, 1, 1, 100, none, ""⟩]
      items := [⟨1, 1, "aspirin", "100mg", "daily", "7d"⟩] }

/-- Fixture with one stored access token, for the uniqueness claims. -/
def dbToken : DB :=
  { dbBase with tokens := [⟨1, 1, "tok-1", 50⟩] }

/-!
## Claim theorems
-/

/-- C1: the claim says that under book calls targeting the same slot exactly
one succeeds and the others fail with SlotUnavailableError.  The code has no
reservation logic at all: an appointment does not reference a slot, nothing
reads or writes `is_available` during booking, and no SlotUnavailableError
exists.  Evaluated at the failing input, two bookings of different patients
with doctor 1 at the same slot time both succeed, leaving two non-canceled
appointments for the same doctor and time, with the slot table untouched. -/
theorem C1_double_booking_not_prevented :
    ((appointmentSerializer_create (appointmentSerializer_create dbBase 1 bookP1)
        2 bookP2).appointments.filter (fun a =>
          decide (a.doctor = 1 ∧ a.date_time = 540 ∧
            a.status ≠ AppointmentStatus.canceled))).length = 2 ∧
    (appointmentSerializer_create (appointmentSerializer_create dbBase 1 bookP1)
        2 bookP2).slots = dbBase.slots := by
  decide

/-- C2: the claim says completed and canceled are terminal and any other
transition fails with InvalidTransitionError.  The code enforces no state
machine: the status field is freely writable through
`AppointmentSerializer`, so updating a completed appointment back to
scheduled succeeds. -/
theorem C2_terminal_state_not_enforced :
    appointmentSerializer_update dbCompleted 1 ⟨none, none, none,
        some AppointmentStatus.scheduled, none⟩ =
      Except.ok { dbCompleted with
                    appointments := [⟨1, 1, 1, 540,
                      AppointmentStatus.scheduled, ""⟩] } := by
  decide

/-- C4: the claim describes issueToken (rejecting ttl ≤ 0) and validate
(NotFoundError / ExpiredTokenError / user identity).  Neither function
exists in the source; the only token surface is the `AccessToken` model,
whose creation checks nothing about `expires_at`: a token that is already
expired at creation time (expires_at = 0, i.e. ttl ≤ 0 for every now ≥ 0)
is stored successfully. -/
theorem C4_token_expiry_unchecked :
    accessToken_create dbBase 1 1 "tok-0" 0 =
      Except.ok { dbBase with tokens := [⟨1, 1, "tok-0", 0⟩] } := by
  decide

/-- C6: the claim says cancel releases the underlying slot.  In the code an
appointment has no slot reference and no release exists: setting the status
to canceled (the only cancelation the code offers) succeeds but leaves the
slot table unchanged, the slot still unavailable. -/
theorem C6_cancel_does_not_release_slot :
    appointmentSerializer_update dbBooked 1 ⟨none, none, none,
        some AppointmentStatus.canceled, none⟩ =
      Except.ok { dbBooked with
                    appointments := [⟨1, 1, 1, 540,
                      AppointmentStatus.canceled, ""⟩] } ∧
    ({ dbBooked with
         appointments := [⟨1, 1, 1, 540, AppointmentStatus.canceled, ""⟩] }
       : DB).slots = [⟨1, 1, 540, 570, false⟩] := by
  decide

/-- C3: the claim says a valid call persists the Prescription and all its
items as one atomic unit, and a call with an empty items list or a missing
item field persists nothing.  The nested item serializer (`fields = all`)
makes the per-item prescription reference a required field, so the only
non-empty-items requests reaching `create` carry it, and `create` then
passes `prescription` twice to `PrescriptionItem.objects.create`, raising a
duplicate-keyword TypeError on the first item — after the Prescription row
was written.  Evaluated at the failing inputs: on the clinical store, the
call with one complete item (its pk referencing the existing prescription 1)
persists the bare Prescription, persists no item, and ends in the
TypeError, so the write is partial and items are never persisted; the
empty-items call succeeds and also persists an item-less Prescription. -/
theorem C3_items_never_persisted :
    issuePrescription dbClinical 2
        ⟨1, 1, 100, none, "", [⟨1, "ibuprofen", "200mg", "daily", "5d"⟩]⟩ =
      (some (DBError.typeError
          "create got multiple values for keyword argument prescription"),
       { dbClinical with
           prescriptions := dbClinical.prescriptions ++
             [⟨2, 1, 1, 100, none, ""⟩] }) ∧
    ({ dbClinical with
         prescriptions := dbClinical.prescriptions ++
           [⟨2, 1, 1, 100, none, ""⟩] } : DB).items = dbClinical.items ∧
    issuePrescription dbBase 1 presEmpty =
      (none, { dbBase with prescriptions := [⟨1, 1, 1, 100, none, ""⟩] }) := by
  decide

/-- C5 counterexample: the claim says createSlot with end ≤ start fails and
creates nothing, but the code validates no relation between the two times:
the call succeeds and the reversed slot is stored. -/
theorem C5_reversed_slot_accepted :
    slotBad.end_time ≤ slotBad.start_time ∧
    createSlot dbBase 2 slotBad =
      Except.ok { dbBase with
                    slots := dbBase.slots ++ [⟨2, 1, 600, 540, true⟩] } := by
  decide

/-- C7 counterexample: the claim says no operation changes an existing user
role, but `UserSerializer.update` writes every provided field: updating
user 1 with role admin turns the stored doctor role into admin. -/
theorem C7_update_changes_role :
    (dbBase.users.map (fun u => u.role)) =
      [Role.doctor, Role.patient, Role.patient] ∧
    userSerializer_update dbBase 1 updRole =
      Except.ok { dbBase with
                    users := [⟨1, "doc@hospital.org", Role.admin, true, false, 0⟩,
                              ⟨2, "pat1@mail.org", Role.patient, true, false, 0⟩,
                              ⟨3, "pat2@mail.org", Role.patient, true, false, 0⟩] } := by
  decide

/-- C5 amended: createSlot fails (with the unique-key conflict error of the
`unique_slot` constraint) exactly when an identical (doctor, start, end)
tuple already exists, and then no slot is created; the relation between end
and start is not validated, so absent a duplicate the call succeeds and
stores the slot even when end ≤ start. -/
theorem C5_createSlot_unique_tuple_only (db : DB) (sid : Nat) (s : SlotNew) :
    ((∃ t ∈ db.slots, t.doctor = s.doctor ∧ t.start_time = s.start_time ∧
        t.end_time = s.end_time) →
      createSlot db sid s = .error (.uniqueViolation "unique_slot")) ∧
    ((∀ t ∈ db.slots, ¬(t.doctor = s.doctor ∧ t.start_time = s.start_time ∧
        t.end_time = s.end_time)) →
      createSlot db sid s = .ok { db with
        slots := db.slots ++
          [⟨sid, s.doctor, s.start_time, s.end_time,
            s.is_available.getD true⟩] }) := by
  constructor
  · rintro ⟨t, ht, hprop⟩
    unfold createSlot
    rw [if_pos (List.any_eq_true.mpr ⟨t, ht, decide_eq_true hprop⟩)]
  · intro hall
    unfold createSlot
    rw [if_neg]
    intro hany
    obtain ⟨t, ht, hp⟩ := List.any_eq_true.mp hany
    exact hall t ht (of_decide_eq_true hp)

/-- Witness for C5: on the base store, creating the already present tuple
(doctor 1, 540, 570) fails with the unique_slot conflict, while the fresh
reversed tuple (doctor 1, 600, 540) is accepted. -/
theorem C5_createSlot_unique_tuple_only_witness :
    createSlot dbBase 2 ⟨1, 540, 570, none⟩ =
      Except.error (DBError.uniqueViolation "unique_slot") ∧
    createSlot dbBase 2 slotBad =
      Except.ok { dbBase with
                    slots := dbBase.slots ++ [⟨2, 1, 600, 540, true⟩] } :=
  ⟨(C5_createSlot_unique_tuple_only dbBase 2 ⟨1, 540, 570, none⟩).1
      ⟨⟨1, 1, 540, 570, true⟩, by decide, by decide⟩,
   (C5_createSlot_unique_tuple_only dbBase 2 slotBad).2
      (by decide)⟩

/-- C10: every slot created without an explicit availability value gets
`is_available = true`, the declared model default, so a new slot is
bookable until something flips the flag. -/
theorem C10_new_slot_default_available (db : DB) (sid : Nat) (s : SlotNew)
    (hs : s.is_available = none) (db' : DB)
    (h : createSlot db sid s = .ok db') :
    db'.slots = db.slots ++
      [⟨sid, s.doctor, s.start_time, s.end_time, true⟩] := by
  unfold createSlot at h
  split at h
  · exact absurd h (by simp)
  · rw [Except.ok.injEq] at h
    rw [← h, hs]
    rfl

/-- Witness for C10: creating slot (doctor 1, 600, 660) with no explicit
availability yields a stored slot with is_available = true. -/
theorem C10_new_slot_default_available_witness :
    (createSlot dbBase 2 ⟨1, 600, 660, none⟩ =
      Except.ok { dbBase with
                    slots := dbBase.slots ++ [⟨2, 1, 600, 660, true⟩] }) ∧
    ({ dbBase with slots := dbBase.slots ++ [⟨2, 1, 600, 660, true⟩] }
        : DB).slots =
      dbBase.slots ++ [⟨2, 1, 600, 660, true⟩] :=
  ⟨by decide,
   C10_new_slot_default_available dbBase 2 ⟨1, 600, 660, none⟩ rfl _ (by decide)⟩

theorem profileUpserted_users (db : DB) (uid : Nat) (p : ProfileNew) :
    (profileUpserted db uid p).users = db.users := by
  unfold profileUpserted
  split <;> rfl

/-- C7 amended: `UserSerializer.update` writes every provided writable field
of the matched user, including role (role is mutable); only the read-only
fields user_id and created_at survive every update unchanged. -/
theorem C7_update_role_not_immutable (db : DB) (uid : Nat) (upd : UserUpdate)
    (u : UserRec)
    (hu : db.users.find? (fun v => decide (v.user_id = uid)) = some u)
    (db' : DB) (h : userSerializer_update db uid upd = .ok db') :
    ∃ u' ∈ db'.users, u'.user_id = u.user_id ∧ u'.created_at = u.created_at ∧
      u'.email = upd.email.getD u.email ∧ u'.role = upd.role.getD u.role ∧
      u'.is_active = upd.is_active.getD u.is_active := by
  have hmem : u ∈ db.users := List.mem_of_find?_eq_some hu
  have hfind := List.find?_some hu
  have huid : u.user_id = uid := of_decide_eq_true hfind
  unfold userSerializer_update at h
  rw [hu] at h
  dsimp only at h
  split at h
  · exact absurd h (by simp)
  · have husers : db'.users =
        db.users.map (fun v =>
          if v.user_id = uid then apply_user_update u upd else v) := by
      split at h
      · rw [Except.ok.injEq] at h
        rw [← h]
        rfl
      · rw [Except.ok.injEq] at h
        rw [← h, profileUpserted_users]
        rfl
    refine ⟨apply_user_update u upd, ?_, rfl, rfl, rfl, rfl, rfl⟩
    rw [husers]
    have := List.mem_map_of_mem
      (fun v => if v.user_id = uid then apply_user_update u upd else v) hmem
    simpa [huid] using this

/-- Witness for C7: updating user 1 of the base store with role admin yields
a stored user with the same id, creation time and email but role admin. -/
theorem C7_update_role_not_immutable_witness :
    ∃ u' ∈ ({ dbBase with
        users := [⟨1, "doc@hospital.org", Role.admin, true, false, 0⟩,
                  ⟨2, "pat1@mail.org", Role.patient, true, false, 0⟩,
                  ⟨3, "pat2@mail.org", Role.patient, true, false, 0⟩] }
      : DB).users,
      u'.user_id = 1 ∧ u'.created_at = 0 ∧ u'.email = "doc@hospital.org" ∧
      u'.role = Role.admin ∧ u'.is_active = true :=
  C7_update_role_not_immutable dbBase 1 updRole
    ⟨1, "doc@hospital.org", Role.doctor, true, false, 0⟩ (by decide)
    _ (by decide)

theorem pairwise_key_append {α β : Type} (f : α → β) (l : List α) (x : α)
    (h : l.Pairwise (fun a b => f a ≠ f b)) (hx : ∀ a ∈ l, f a ≠ f x) :
    (l ++ [x]).Pairwise (fun a b => f a ≠ f b) := by
  rw [List.pairwise_append]
  refine ⟨h, List.pairwise_singleton _ _, ?_⟩
  intro a ha b hb
  rw [List.mem_singleton] at hb
  subst hb
  exact hx a ha

theorem pairwise_key_update (l : List UserRec) (uid : Nat) (u2 : UserRec)
    (hU : l.Pairwise (fun a b => a.email ≠ b.email))
    (hpk : l.Pairwise (fun a b => a.user_id ≠ b.user_id))
    (hguard : ∀ v ∈ l, v.user_id ≠ uid → v.email ≠ u2.email) :
    (l.map (fun v => if v.user_id = uid then u2 else v)).Pairwise
      (fun a b => a.email ≠ b.email) := by
  induction l with
  | nil => simp
  | cons x xs ih =>
      rw [List.map_cons, List.pairwise_cons]
      rw [List.pairwise_cons] at hU hpk
      refine ⟨?_, ih hU.2 hpk.2
        (fun v hv => hguard v (List.mem_cons_of_mem _ hv))⟩
      intro y hy
      rw [List.mem_map] at hy
      obtain ⟨v, hv, rfl⟩ := hy
      by_cases hx : x.user_id = uid
      · rw [if_pos hx]
        have hvne : v.user_id ≠ uid := fun hveq =>
          (hpk.1 v hv) (hx.trans hveq.symm)
        rw [if_neg hvne]
        exact (hguard v (List.mem_cons_of_mem _ hv) hvne).symm
      · rw [if_neg hx]
        by_cases hv2 : v.user_id = uid
        · rw [if_pos hv2]
          exact hguard x (List.mem_cons_self _ _) hx
        · rw [if_neg hv2]
          exact hU.1 v hv

theorem create_user_ok (db : DB) (uid : Nat) (email : String) (role : Role)
    (act : Bool) (now : Nat) (db' : DB)
    (h : create_user db uid email role act now = .ok db') :
    (∀ u ∈ db.users, u.email ≠ normalize_email email) ∧
    db'.users = db.users ++
      [⟨uid, normalize_email email, role, act, false, now⟩] ∧
    db'.doctors = db.doctors ∧ db'.tokens = db.tokens := by
  unfold create_user at h
  split at h
  · exact absurd h (by simp)
  · split at h
    · exact absurd h (by simp)
    · rename_i hne hany
      rw [Except.ok.injEq] at h
      refine ⟨?_, by rw [← h], by rw [← h], by rw [← h]⟩
      intro u hu heq
      exact hany (List.any_eq_true.mpr ⟨u, hu, decide_eq_true heq⟩)

theorem userSerializer_create_ok (db : DB) (uid pid : Nat) (email : String)
    (role : Role) (act : Bool) (prof : Option ProfileNew) (now : Nat)
    (db' : DB)
    (h : userSerializer_create db uid pid email role act prof now = .ok db') :
    (∀ u ∈ db.users, u.email ≠ normalize_email email) ∧
    db'.users = db.users ++
      [⟨uid, normalize_email email, role, act, false, now⟩] ∧
    db'.doctors = db.doctors ∧ db'.tokens = db.tokens := by
  unfold userSerializer_create at h
  split at h
  · exact absurd h (by simp)
  · rename_i db1 hcu
    have hc := create_user_ok db uid email role act now db1 hcu
    split at h
    · rw [Except.ok.injEq] at h
      rw [← h]
      exact hc
    · rw [Except.ok.injEq] at h
      rw [← h]
      exact hc

theorem patientSerializer_create_ok (db : DB) (uid ppid patid : Nat)
    (email : String) (role : Role) (act : Bool) (prof : Option ProfileNew)
    (now : Nat) (bt al : String) (hgt wgt : Option Int) (ins : String)
    (db' : DB)
    (h : patientSerializer_create db uid ppid patid email role act prof now
          bt al hgt wgt ins = .ok db') :
    (∀ u ∈ db.users, u.email ≠ normalize_email email) ∧
    db'.users = db.users ++
      [⟨uid, normalize_email email, role, act, false, now⟩] ∧
    db'.doctors = db.doctors ∧ db'.tokens = db.tokens := by
  unfold patientSerializer_create at h
  split at h
  · exact absurd h (by simp)
  · rename_i db1 hcu
    have hc := userSerializer_create_ok db uid ppid email role act prof now
      db1 hcu
    rw [Except.ok.injEq] at h
    rw [← h]
    exact hc

theorem doctorSerializer_create_ok (db : DB) (uid ppid did : Nat)
    (email : String) (role : Role) (act : Bool) (prof : Option ProfileNew)
    (now : Nat) (spec lic : String) (db' : DB)
    (h : doctorSerializer_create db uid ppid did email role act prof now
          spec lic = .ok db') :
    (∀ d ∈ db.doctors, d.license_number ≠ lic) ∧
    (∀ u ∈ db.users, u.email ≠ normalize_email email) ∧
    db'.users = db.users ++
      [⟨uid, normalize_email email, role, act, false, now⟩] ∧
    db'.doctors = db.doctors ++ [⟨did, uid, spec, lic, none⟩] ∧
    db'.tokens = db.tokens := by
  unfold doctorSerializer_create at h
  split at h
  · exact absurd h (by simp)
  · rename_i hlic
    split at h
    · exact absurd h (by simp)
    · rename_i db1 hcu
      have hc := userSerializer_create_ok db uid ppid email role act prof now
        db1 hcu
      rw [Except.ok.injEq] at h
      refine ⟨?_, hc.1, by rw [← h]; exact hc.2.1,
        by rw [← h]; show db1.doctors ++ _ = _; rw [hc.2.2.1],
        by rw [← h]; exact hc.2.2.2⟩
      intro d hd heq
      exact hlic (List.any_eq_true.mpr ⟨d, hd, decide_eq_true heq⟩)

theorem profileUpserted_frame (db : DB) (uid : Nat) (p : ProfileNew) :
    (profileUpserted db uid p).users = db.users ∧
    (profileUpserted db uid p).doctors = db.doctors ∧
    (profileUpserted db uid p).tokens = db.tokens := by
  unfold profileUpserted
  split <;> exact ⟨rfl, rfl, rfl⟩

theorem userSerializer_update_ok (db : DB) (uid : Nat) (upd : UserUpdate)
    (db' : DB) (h : userSerializer_update db uid upd = .ok db') :
    ∃ u, db.users.find? (fun v => decide (v.user_id = uid)) = some u ∧
      (∀ v ∈ db.users, v.user_id ≠ uid →
        v.email ≠ (apply_user_update u upd).email) ∧
      db'.users = db.users.map (fun v =>
        if v.user_id = uid then apply_user_update u upd else v) ∧
      db'.doctors = db.doctors ∧ db'.tokens = db.tokens := by
  unfold userSerializer_update at h
  split at h
  · exact absurd h (by simp)
  · rename_i u hfind
    refine ⟨u, hfind, ?_⟩
    split at h
    · exact absurd h (by simp)
    · rename_i hany
      have hguard : ∀ v ∈ db.users, v.user_id ≠ uid →
          v.email ≠ (apply_user_update u upd).email := by
        intro v hv hne heq
        exact hany (List.any_eq_true.mpr ⟨v, hv, decide_eq_true ⟨hne, heq⟩⟩)
      split at h
      · rw [Except.ok.injEq] at h
        exact ⟨hguard, by rw [← h]; rfl, by rw [← h]; rfl, by rw [← h]; rfl⟩
      · rw [Except.ok.injEq] at h
        refine ⟨hguard, ?_, ?_, ?_⟩
        · rw [← h, (profileUpserted_frame _ uid _).1]
          rfl
        · rw [← h, (profileUpserted_frame _ uid _).2.1]
          rfl
        · rw [← h, (profileUpserted_frame _ uid _).2.2]
          rfl

theorem accessToken_create_ok (db : DB) (tid user : Nat) (tok : String)
    (exp : Nat) (db' : DB)
    (h : accessToken_create db tid user tok exp = .ok db') :
    (∀ t ∈ db.tokens, t.token ≠ tok) ∧
    db'.users = db.users ∧ db'.doctors = db.doctors ∧
    db'.tokens = db.tokens ++ [⟨tid, user, tok, exp⟩] := by
  unfold accessToken_create at h
  split at h
  · exact absurd h (by simp)
  · rename_i hany
    rw [Except.ok.injEq] at h
    refine ⟨?_, by rw [← h], by rw [← h], by rw [← h]⟩
    intro t ht heq
    exact hany (List.any_eq_true.mpr ⟨t, ht, decide_eq_true heq⟩)

/-- C8: the three unique keys declared in `models.py` (user email, doctor
license number, token value) stay pairwise distinct under every operation of
the embedded surface, and every create that would duplicate one of these
keys fails with the corresponding unique-key conflict, leaving the store
unchanged (validation precedes any write). -/
theorem C8_unique_keys_invariant (db : DB) (hU : UniqueKeys db)
    (hpk : db.users.Pairwise (fun a b => a.user_id ≠ b.user_id)) :
    (∀ uid email role act now db',
        create_user db uid email role act now = .ok db' → UniqueKeys db') ∧
    (∀ uid pid email role act prof now db',
        userSerializer_create db uid pid email role act prof now = .ok db' →
          UniqueKeys db') ∧
    (∀ uid ppid patid email role act prof now bt al hgt wgt ins db',
        patientSerializer_create db uid ppid patid email role act prof now
            bt al hgt wgt ins = .ok db' → UniqueKeys db') ∧
    (∀ uid ppid did email role act prof now spec lic db',
        doctorSerializer_create db uid ppid did email role act prof now
            spec lic = .ok db' → UniqueKeys db') ∧
    (∀ uid upd db',
        userSerializer_update db uid upd = .ok db' → UniqueKeys db') ∧
    (∀ sid s db', createSlot db sid s = .ok db' → UniqueKeys db') ∧
    (∀ aid a, UniqueKeys (appointmentSerializer_create db aid a)) ∧
    (∀ aid upd db',
        appointmentSerializer_update db aid upd = .ok db' → UniqueKeys db') ∧
    (∀ pid p, UniqueKeys (issuePrescription db pid p).2) ∧
    (∀ tid user tok exp db',
        accessToken_create db tid user tok exp = .ok db' → UniqueKeys db') ∧
    (∀ did, UniqueKeys (delete_doctor db did)) ∧
    (∀ uid email role act now,
        (∃ u ∈ db.users, u.email = normalize_email email) → email ≠ "" →
        create_user db uid email role act now =
          .error (.uniqueViolation "users.email")) ∧
    (∀ uid ppid did email role act prof now spec lic,
        (∃ d ∈ db.doctors, d.license_number = lic) →
        doctorSerializer_create db uid ppid did email role act prof now
            spec lic = .error (.uniqueViolation "doctors.license_number")) ∧
    (∀ tid user tok exp, (∃ t ∈ db.tokens, t.token = tok) →
        accessToken_create db tid user tok exp =
          .error (.uniqueViolation "access_tokens.token")) := by
  obtain ⟨hUe, hUl, hUt⟩ := hU
  refine ⟨?_, ?_, ?_, ?_, ?_, ?_, ?_, ?_, ?_, ?_, ?_, ?_, ?_, ?_⟩
  · intro uid email role act now db' h
    obtain ⟨hfresh, hu, hd, ht⟩ := create_user_ok db uid email role act now db' h
    exact ⟨by rw [hu]; exact pairwise_key_append (fun u : UserRec => u.email) _ _ hUe hfresh,
           by rw [hd]; exact hUl, by rw [ht]; exact hUt⟩
  · intro uid pid email role act prof now db' h
    obtain ⟨hfresh, hu, hd, ht⟩ :=
      userSerializer_create_ok db uid pid email role act prof now db' h
    exact ⟨by rw [hu]; exact pairwise_key_append (fun u : UserRec => u.email) _ _ hUe hfresh,
           by rw [hd]; exact hUl, by rw [ht]; exact hUt⟩
  · intro uid ppid patid email role act prof now bt al hgt wgt ins db' h
    obtain ⟨hfresh, hu, hd, ht⟩ :=
      patientSerializer_create_ok db uid ppid patid email role act prof now
        bt al hgt wgt ins db' h
    exact ⟨by rw [hu]; exact pairwise_key_append (fun u : UserRec => u.email) _ _ hUe hfresh,
           by rw [hd]; exact hUl, by rw [ht]; exact hUt⟩
  · intro uid ppid did email role act prof now spec lic db' h
    obtain ⟨hlic, hfresh, hu, hd, ht⟩ :=
      doctorSerializer_create_ok db uid ppid did email role act prof now
        spec lic db' h
    exact ⟨by rw [hu]; exact pairwise_key_append (fun u : UserRec => u.email) _ _ hUe hfresh,
           by rw [hd]; exact
             pairwise_key_append (fun d : DoctorRec => d.license_number) _ _ hUl hlic,
           by rw [ht]; exact hUt⟩
  · intro uid upd db' h
    obtain ⟨u, hfind, hguard, hu, hd, ht⟩ :=
      userSerializer_update_ok db uid upd db' h
    exact ⟨by rw [hu]; exact pairwise_key_update db.users uid _ hUe hpk hguard,
           by rw [hd]; exact hUl, by rw [ht]; exact hUt⟩
  · intro sid s db' h
    unfold createSlot at h
    split at h
    · exact absurd h (by simp)
    · rw [Except.ok.injEq] at h
      rw [← h]
      exact ⟨hUe, hUl, hUt⟩
  · intro aid a
    exact ⟨hUe, hUl, hUt⟩
  · intro aid upd db' h
    unfold appointmentSerializer_update at h
    split at h
    · exact absurd h (by simp)
    · rw [Except.ok.injEq] at h
      rw [← h]
      exact ⟨hUe, hUl, hUt⟩
  · intro pid p
    unfold issuePrescription
    split
    · exact ⟨hUe, hUl, hUt⟩
    · exact ⟨hUe, hUl, hUt⟩
  · intro tid user tok exp db' h
    obtain ⟨hfresh, hu, hd, ht⟩ := accessToken_create_ok db tid user tok exp db' h
    exact ⟨by rw [hu]; exact hUe, by rw [hd]; exact hUl,
           by rw [ht]; exact pairwise_key_append (fun t : AccessTokenRec => t.token) _ _ hUt hfresh⟩
  · intro did
    exact ⟨hUe, List.Pairwise.sublist (List.filter_sublist _) hUl, hUt⟩
  · rintro uid email role act now ⟨u, hu, heq⟩ hne
    unfold create_user
    rw [if_neg hne, if_pos (List.any_eq_true.mpr ⟨u, hu, decide_eq_true heq⟩)]
  · rintro uid ppid did email role act prof now spec lic ⟨d, hd, heq⟩
    unfold doctorSerializer_create
    rw [if_pos (List.any_eq_true.mpr ⟨d, hd, decide_eq_true heq⟩)]
  · rintro tid user tok exp ⟨t, ht, heq⟩
    unfold accessToken_create
    rw [if_pos (List.any_eq_true.mpr ⟨t, ht, decide_eq_true heq⟩)]

/-- Witness for C8: the token store with one user set and token tok-1 keeps
unique keys when a fresh token tok-2 is added, and rejects a second token
with the value tok-1. -/
theorem C8_unique_keys_invariant_witness :
    (accessToken_create dbToken 2 1 "tok-1" 99 =
      Except.error (DBError.uniqueViolation "access_tokens.token")) ∧
    UniqueKeys { dbToken with
                   tokens := dbToken.tokens ++ [⟨2, 1, "tok-2", 99⟩] } :=
  ⟨(C8_unique_keys_invariant dbToken
      ⟨by decide, by decide, by decide⟩ (by decide)).2.2.2.2.2.2.2.2.2.2.2.2.2
      2 1 "tok-1" 99 ⟨⟨1, 1, "tok-1", 50⟩, by decide, rfl⟩,
   (C8_unique_keys_invariant dbToken
      ⟨by decide, by decide, by decide⟩ (by decide)).2.2.2.2.2.2.2.2.2.1
      2 1 "tok-2" 99 _ (by decide)⟩

/-- C9: deleting a Doctor removes, per the declared `on_delete` rules,
exactly the rows tied to that doctor: its prescriptions (and, via the
cascade on `PrescriptionItem.prescription`, precisely the items of those
prescriptions) and its own slots and appointments are deleted; every
medical-history row survives (same count), with the doctor reference set
to null exactly on the rows that pointed at the deleted doctor; all other
tables are untouched. -/
theorem C9_delete_doctor_cascade (db : DB) (did : Nat) :
    ((delete_doctor db did).users = db.users ∧
     (delete_doctor db did).profiles = db.profiles ∧
     (delete_doctor db did).patients = db.patients ∧
     (delete_doctor db did).hospitals = db.hospitals ∧
     (delete_doctor db did).medications = db.medications ∧
     (delete_doctor db did).auditlogs = db.auditlogs ∧
     (delete_doctor db did).tokens = db.tokens) ∧
    (∀ d, d ∈ (delete_doctor db did).doctors ↔
        d ∈ db.doctors ∧ d.doctor_id ≠ did) ∧
    (∀ s, s ∈ (delete_doctor db did).slots ↔
        s ∈ db.slots ∧ s.doctor ≠ did) ∧
    (∀ a, a ∈ (delete_doctor db did).appointments ↔
        a ∈ db.appointments ∧ a.doctor ≠ did) ∧
    (∀ p, p ∈ (delete_doctor db did).prescriptions ↔
        p ∈ db.prescriptions ∧ p.doctor ≠ did) ∧
    (∀ i, i ∈ (delete_doctor db did).items ↔
        i ∈ db.items ∧ ¬ ∃ p ∈ db.prescriptions,
          p.doctor = did ∧ p.prescription_id = i.prescription) ∧
    ((delete_doctor db did).histories.length = db.histories.length) ∧
    (∀ h ∈ db.histories,
      (if h.doctor_id = some did then { h with doctor_id := none } else h) ∈
        (delete_doctor db did).histories) := by
  refine ⟨⟨rfl, rfl, rfl, rfl, rfl, rfl, rfl⟩, ?_, ?_, ?_, ?_, ?_, ?_, ?_⟩
  · intro d
    simp [delete_doctor, List.mem_filter]
  · intro s
    simp [delete_doctor, List.mem_filter]
  · intro a
    simp [delete_doctor, List.mem_filter]
  · intro p
    simp [delete_doctor, List.mem_filter]
  · intro i
    simp [delete_doctor, List.mem_filter]
  · simp [delete_doctor]
  · intro h hh
    have := List.mem_map_of_mem (fun h : MedicalHistoryRec =>
      if h.doctor_id = some did then { h with doctor_id := none } else h) hh
    simpa [delete_doctor] using this

/-- Witness for C9: deleting doctor 1 from the clinical store keeps the
users table, removes the prescription of doctor 1, and keeps the history
row of doctor 1 with its doctor reference nulled. -/
theorem C9_delete_doctor_cascade_witness :
    ((delete_doctor dbClinical 1).users = dbClinical.users) ∧
    ((⟨1, 1, 1, 100, none, ""⟩ : PrescriptionRec) ∉
      (delete_doctor dbClinical 1).prescriptions) ∧
    ((⟨1, 1, "flu", "rest", 10, none⟩ : MedicalHistoryRec) ∈
      (delete_doctor dbClinical 1).histories) :=
  ⟨(C9_delete_doctor_cascade dbClinical 1).1.1,
   fun hmem =>
     (((C9_delete_doctor_cascade dbClinical 1).2.2.2.2.1 _).mp hmem).2 rfl,
   by
     have := (C9_delete_doctor_cascade dbClinical 1).2.2.2.2.2.2.2
       ⟨1, 1, "flu", "rest", 10, some 1⟩ (by decide)
     simpa using this⟩

end MediFile
